import Mathlib

/-!
Shallow embedding of the greenCarbon emissions tracker core
(EmissionsTracker in the main tracker module, Emissions in the emissions
module, Geography.getRegionalCarbonIntensity in src/geography.js).

Numbers are modelled as exact rationals; JavaScript Date.now() readings,
sampler outputs and the carbon-intensity table are explicit inputs.
Fallible hardware queries are modelled as Except values: getRAMInfo throws
when hardware initialization failed (memInfo is null), while getCPUUsage
catches its own failure and returns the constant 50, and getGPUInfo never
throws.  JavaScript truthiness of numeric options (0 is falsy in the
patterns options.x || default and force || sampled) is modelled explicitly.
-/

/-- One entry of the measurements array pushed by measurePowerAndEnergy. -/
structure Measurement where
  timestamp : ℚ
  duration : ℚ
  cpuPower : ℚ
  ramPower : ℚ
  gpuPower : ℚ
  cpuEnergy : ℚ
  ramEnergy : ℚ
  gpuEnergy : ℚ
  totalEnergy : ℚ
  cpuUsage : ℚ
deriving DecidableEq

/-- Mutable state of an EmissionsTracker instance (the fields the tracked
claims depend on).  startTime and endTime are 0 before being set, matching
JavaScript null coercing to 0 in arithmetic. -/
structure TrackerState where
  isTracking : Bool
  startTime : ℚ
  endTime : ℚ
  measurePowerInterval : ℚ
  pue : ℚ
  forceCpuPower : Option ℚ
  forceRamPower : Option ℚ
  forceGpuPower : Option ℚ
  locCountryCode : String
  locRegion : Option String
  totalCpuEnergy : ℚ
  totalRamEnergy : ℚ
  totalGpuEnergy : ℚ
  totalEnergy : ℚ
  measurements : List Measurement
deriving DecidableEq

/-- Constructor options (the subset the claims depend on); absent fields are
none, matching undefined in JavaScript. -/
structure TrackerOptions where
  measurePowerSecs : Option ℚ
  countryCode : Option String
  region : Option String
  pue : Option ℚ
  forceCpuPower : Option ℚ
  forceRamPower : Option ℚ
  forceGpuPower : Option ℚ
deriving DecidableEq

/-- JavaScript x || d for a numeric option: 0 is falsy, so it falls through
to the default. -/
def jsOrNum (x : Option ℚ) (d : ℚ) : ℚ :=
  match x with
  | some v => if v = 0 then d else v
  | none => d

/-- JavaScript x || null for a numeric option: 0 becomes null. -/
def jsOrNull (x : Option ℚ) : Option ℚ :=
  match x with
  | some v => if v = 0 then none else some v
  | none => none

/-- JavaScript s || null for a string option: the empty string becomes null. -/
def jsOrStrNull (x : Option String) : Option String :=
  match x with
  | some v => if v = "" then none else some v
  | none => none

/-- JavaScript force || sampled in measurePowerAndEnergy: a null or 0 W
override falls through to the sampled value. -/
def jsOr (force : Option ℚ) (sampled : ℚ) : ℚ :=
  match force with
  | some v => if v = 0 then sampled else v
  | none => sampled

/-- The location the tracker resolves at start.  When a countryCode option is
given (and nonempty, hence truthy) the manual path of initializeSystemInfo is
taken; otherwise detectLocation runs, modelled by its documented fallback
location (USA, no region) since the locale probe is an environment input. -/
def resolvedLocation (opts : TrackerOptions) : String × Option String :=
  match jsOrStrNull opts.countryCode with
  | some c => (c, jsOrStrNull opts.region)
  | none => ("USA", none)

/-- The EmissionsTracker constructor: defaults applied with JavaScript || ,
interval converted to milliseconds, accumulators zeroed. -/
def initialState (opts : TrackerOptions) : TrackerState :=
  { isTracking := false
    startTime := 0
    endTime := 0
    measurePowerInterval := jsOrNum opts.measurePowerSecs 15 * 1000
    pue := jsOrNum opts.pue 1
    forceCpuPower := jsOrNull opts.forceCpuPower
    forceRamPower := jsOrNull opts.forceRamPower
    forceGpuPower := jsOrNull opts.forceGpuPower
    locCountryCode := (resolvedLocation opts).1
    locRegion := (resolvedLocation opts).2
    totalCpuEnergy := 0
    totalRamEnergy := 0
    totalGpuEnergy := 0
    totalEnergy := 0
    measurements := [] }

deriving instance DecidableEq for Except

/-- Raw sampler inputs of one tick.  cpuLoad is the si.currentLoad result
(getCPUUsage catches its failure); cpuTdp the heuristic TDP for the detected
model; ramPower the getRAMInfo result, which throws when hardware
initialization failed; gpuPower the getGPUInfo wattage, which never throws. -/
structure TickSample where
  cpuLoad : Except Unit ℚ
  cpuTdp : ℚ
  ramPower : Except Unit ℚ
  gpuPower : ℚ
deriving DecidableEq

/-- getCPUUsage: returns the current load, or the default fallback 50 when
the probe fails (the failure is caught inside this function). -/
def getCPUUsage (load : Except Unit ℚ) : ℚ :=
  match load with
  | Except.ok v => v
  | Except.error _ => 50

/-- estimateCPUPower: tdp * (basePowerRatio + loadFactor * 0.5) with
basePowerRatio 0.5 and loadFactor = usage / 100. -/
def estimateCPUPower (tdp usage : ℚ) : ℚ :=
  tdp * (1 / 2 + usage / 100 * (1 / 2))

/-- timeSinceLastMeasurement in measurePowerAndEnergy: seconds since the
last stored measurement, or the full interval when none exists yet. -/
def timeSinceLast (s : TrackerState) (now : ℚ) : ℚ :=
  match s.measurements.getLast? with
  | some m => (now - m.timestamp) / 1000
  | none => s.measurePowerInterval / 1000

/-- Effective CPU wattage of a tick: the force override unless null or 0,
else the estimated sampled power. -/
def effectiveCpuPower (s : TrackerState) (smp : TickSample) : ℚ :=
  jsOr s.forceCpuPower (estimateCPUPower smp.cpuTdp (getCPUUsage smp.cpuLoad))

/-- Effective RAM wattage of a tick, given the successfully sampled value. -/
def effectiveRamPower (s : TrackerState) (ramSampled : ℚ) : ℚ :=
  jsOr s.forceRamPower ramSampled

/-- Effective GPU wattage of a tick. -/
def effectiveGpuPower (s : TrackerState) (smp : TickSample) : ℚ :=
  jsOr s.forceGpuPower smp.gpuPower

/-- The Measurement record pushed by one successful tick: the elapsed
seconds, the effective wattages, the PUE-adjusted energy increments and the
recomputed running total. -/
def tickMeasurement (s : TrackerState) (now : ℚ) (smp : TickSample)
    (ramSampled : ℚ) : Measurement :=
  { timestamp := now
    duration := timeSinceLast s now
    cpuPower := effectiveCpuPower s smp
    ramPower := effectiveRamPower s ramSampled
    gpuPower := effectiveGpuPower s smp
    cpuEnergy := effectiveCpuPower s smp * timeSinceLast s now /
      (1000 * 3600) * s.pue
    ramEnergy := effectiveRamPower s ramSampled * timeSinceLast s now /
      (1000 * 3600) * s.pue
    gpuEnergy := effectiveGpuPower s smp * timeSinceLast s now /
      (1000 * 3600) * s.pue
    totalEnergy :=
      s.totalCpuEnergy + effectiveCpuPower s smp * timeSinceLast s now /
        (1000 * 3600) * s.pue +
      (s.totalRamEnergy + effectiveRamPower s ramSampled * timeSinceLast s now /
        (1000 * 3600) * s.pue) +
      (s.totalGpuEnergy + effectiveGpuPower s smp * timeSinceLast s now /
        (1000 * 3600) * s.pue)
    cpuUsage := getCPUUsage smp.cpuLoad }

/-- Body of measurePowerAndEnergy once all hardware queries succeeded:
integrate power over the elapsed seconds, apply PUE, recompute the total
from the three accumulators, push a Measurement. -/
def performTick (s : TrackerState) (now : ℚ) (smp : TickSample)
    (ramSampled : ℚ) : TrackerState :=
  { s with
    totalCpuEnergy := s.totalCpuEnergy +
      effectiveCpuPower s smp * timeSinceLast s now / (1000 * 3600) * s.pue
    totalRamEnergy := s.totalRamEnergy +
      effectiveRamPower s ramSampled * timeSinceLast s now / (1000 * 3600) * s.pue
    totalGpuEnergy := s.totalGpuEnergy +
      effectiveGpuPower s smp * timeSinceLast s now / (1000 * 3600) * s.pue
    totalEnergy :=
      s.totalCpuEnergy + effectiveCpuPower s smp * timeSinceLast s now /
        (1000 * 3600) * s.pue +
      (s.totalRamEnergy + effectiveRamPower s ramSampled * timeSinceLast s now /
        (1000 * 3600) * s.pue) +
      (s.totalGpuEnergy + effectiveGpuPower s smp * timeSinceLast s now /
        (1000 * 3600) * s.pue)
    measurements := s.measurements ++ [tickMeasurement s now smp ramSampled] }

/-- measurePowerAndEnergy: no-op when not tracking; the surrounding
try/catch turns any sampler exception into a logged error that skips the
whole tick, leaving the state untouched. -/
def measurePowerAndEnergy (s : TrackerState) (now : ℚ) (smp : TickSample) :
    TrackerState :=
  if s.isTracking = false then s
  else
    match smp.ramPower with
    | Except.error _ => s
    | Except.ok ramSampled => performTick s now smp ramSampled

/-- The state reset performed by start before its immediate first tick:
tracking set, startTime recorded, accumulators and measurement log cleared. -/
def resetState (s : TrackerState) (now : ℚ) : TrackerState :=
  { s with
    isTracking := true
    startTime := now
    totalCpuEnergy := 0
    totalRamEnergy := 0
    totalGpuEnergy := 0
    totalEnergy := 0
    measurements := [] }

/-- start: warn and keep state when already tracking; otherwise reset the
accumulators and the measurement log, record startTime, begin tracking and
take one immediate measurement. -/
def start (s : TrackerState) (now : ℚ) (smp : TickSample) : TrackerState :=
  if s.isTracking then s
  else measurePowerAndEnergy (resetState s now) now smp

/-- The world-average carbon intensity constant of the Emissions class. -/
def worldAverageCarbonIntensity : ℚ := 475

/-- Emissions.getCarbonIntensity over the loaded table: the country entry
when present, else (with a logged warning) the world average. -/
def getCarbonIntensity (table : List (String × ℚ)) (countryCode : String) : ℚ :=
  match table.lookup countryCode with
  | some v => v
  | none => worldAverageCarbonIntensity

/-- Emissions.calculateEmissions: intensity in g/kWh converted to kg/kWh
times the energy. -/
def calculateEmissions (table : List (String × ℚ)) (energyKWh : ℚ)
    (countryCode : String) : ℚ :=
  getCarbonIntensity table countryCode / 1000 * energyKWh

/-- The fields of the results object built by calculateFinalEmissions that
the claims depend on. -/
structure FinalResults where
  emissions : ℚ
  emissionsRate : ℚ
  energyConsumed : ℚ
  duration : ℚ
  cpuEnergy : ℚ
  ramEnergy : ℚ
  gpuEnergy : ℚ
  countryCode : String
  region : Option String
  measurementCount : ℕ
deriving DecidableEq

/-- calculateFinalEmissions: duration in seconds, emissions from the total
energy and the country code of the resolved location (the region is copied
into the result but not passed to the intensity lookup), rate guarded
against zero duration. -/
def calculateFinalEmissions (s : TrackerState) (table : List (String × ℚ)) :
    FinalResults :=
  let duration := (s.endTime - s.startTime) / 1000
  let emissions := calculateEmissions table s.totalEnergy s.locCountryCode
  { emissions := emissions
    emissionsRate := if duration > 0 then emissions / duration else 0
    energyConsumed := s.totalEnergy
    duration := duration
    cpuEnergy := s.totalCpuEnergy
    ramEnergy := s.totalRamEnergy
    gpuEnergy := s.totalGpuEnergy
    countryCode := s.locCountryCode
    region := s.locRegion
    measurementCount := s.measurements.length }

/-- stop: returns 0 and mutates nothing when not tracking; otherwise takes
one final measurement, records endTime, leaves the tracking state, and
returns the computed emissions. -/
def stop (s : TrackerState) (tickNow endNow : ℚ) (smp : TickSample)
    (table : List (String × ℚ)) : TrackerState × ℚ :=
  if s.isTracking = false then (s, 0)
  else
    let s1 := measurePowerAndEnergy s tickNow smp
    let s2 := { s1 with endTime := endNow, isTracking := false }
    (s2, (calculateFinalEmissions s2 table).emissions)

/-- US state table of Geography.getRegionalCarbonIntensity. -/
def usStates : List (String × ℚ) :=
  [("CA", 300), ("WA", 250), ("NY", 350), ("TX", 450), ("WV", 850),
   ("WY", 900), ("FL", 500)]

/-- Canadian province table of Geography.getRegionalCarbonIntensity. -/
def canadianProvinces : List (String × ℚ) :=
  [("QC", 50), ("ON", 150), ("BC", 100), ("AB", 600), ("SK", 700)]

/-- Geography.getRegionalCarbonIntensity: a sub-region value for recognized
USA states or Canadian provinces, none (meaning use country-level data)
otherwise. -/
def getRegionalCarbonIntensity (countryCode : String)
    (region : Option String) : Option ℚ :=
  match region with
  | none => none
  | some r =>
    if countryCode = "USA" then usStates.lookup r
    else if countryCode = "CAN" then canadianProvinces.lookup r
    else none

/-- A session run: fold the tick handler over a list of (clock reading,
sampler readings) pairs. -/
def runTicks (s : TrackerState) (ts : List (ℚ × TickSample)) : TrackerState :=
  ts.foldl (fun acc t => measurePowerAndEnergy acc t.1 t.2) s

/-! ## Helper lemmas -/

/-- A tick never changes the configured PUE. -/
theorem tick_pue (s : TrackerState) (now : ℚ) (smp : TickSample) :
    (measurePowerAndEnergy s now smp).pue = s.pue := by
  unfold measurePowerAndEnergy
  by_cases ht : s.isTracking = false
  · simp [ht]
  · cases hr : smp.ramPower with
    | error e => simp [ht, hr]
    | ok r => simp [ht, hr, performTick]

/-- Bookkeeping invariant of the accumulators: each domain accumulator is
the sum of the energies stored in the measurement log, the total is the sum
of the three accumulators, and every stored per-domain energy equals
watts times elapsed seconds over 3.6e6 times the PUE. -/
def storedEnergyInv (p : ℚ) (s : TrackerState) : Prop :=
  s.pue = p ∧
  s.totalCpuEnergy = (s.measurements.map Measurement.cpuEnergy).sum ∧
  s.totalRamEnergy = (s.measurements.map Measurement.ramEnergy).sum ∧
  s.totalGpuEnergy = (s.measurements.map Measurement.gpuEnergy).sum ∧
  s.totalEnergy = s.totalCpuEnergy + s.totalRamEnergy + s.totalGpuEnergy ∧
  ∀ m ∈ s.measurements,
    m.cpuEnergy = m.cpuPower * m.duration / 3600000 * p ∧
    m.ramEnergy = m.ramPower * m.duration / 3600000 * p ∧
    m.gpuEnergy = m.gpuPower * m.duration / 3600000 * p

theorem tick_storedEnergyInv (p : ℚ) (s : TrackerState) (now : ℚ)
    (smp : TickSample) (h : storedEnergyInv p s) :
    storedEnergyInv p (measurePowerAndEnergy s now smp) := by
  obtain ⟨hp, h1, h2, h3, h4, h5⟩ := h
  unfold measurePowerAndEnergy
  by_cases ht : s.isTracking = false
  · simpa [ht] using ⟨hp, h1, h2, h3, h4, h5⟩
  · cases hr : smp.ramPower with
    | error e => simpa [ht, hr] using ⟨hp, h1, h2, h3, h4, h5⟩
    | ok r =>
      simp only [ht, hr, if_false, Bool.false_eq_true]
      refine ⟨hp, ?_, ?_, ?_, ?_, ?_⟩
      · simp [performTick, tickMeasurement, h1]
      · simp [performTick, tickMeasurement, h2]
      · simp [performTick, tickMeasurement, h3]
      · simp [performTick]
      · intro m hm
        simp [performTick] at hm
        rcases hm with hm | hm
        · exact h5 m hm
        · subst hm
          refine ⟨?_, ?_, ?_⟩ <;> simp [tickMeasurement, hp] <;> ring_nf <;>
            norm_num

theorem runTicks_storedEnergyInv (p : ℚ) (s : TrackerState)
    (ts : List (ℚ × TickSample)) (h : storedEnergyInv p s) :
    storedEnergyInv p (runTicks s ts) := by
  induction ts generalizing s with
  | nil => exact h
  | cons t rest ih =>
    exact ih (measurePowerAndEnergy s t.1 t.2) (tick_storedEnergyInv p s t.1 t.2 h)

theorem sum_map_add_three {α : Type} (l : List α) (f g h : α → ℚ) :
    (l.map fun x => f x + g x + h x).sum =
      (l.map f).sum + (l.map g).sum + (l.map h).sum := by
  induction l with
  | nil => simp
  | cons a t ih => simp only [List.map_cons, List.sum_cons, ih]; ring

/-! ## Claim C1 -/

/-- Claim C1: starting from a session whose accumulators and measurement log
are freshly reset, after any sequence of ticks the accumulated total energy
equals the sum over recorded ticks and domains of
watts times elapsed seconds divided by 3.6e6 times the PUE (exact rational
arithmetic, hence within any floating tolerance). -/
theorem conservation_total_energy (s0 : TrackerState)
    (ts : List (ℚ × TickSample))
    (hcpu : s0.totalCpuEnergy = 0) (hram : s0.totalRamEnergy = 0)
    (hgpu : s0.totalGpuEnergy = 0) (htot : s0.totalEnergy = 0)
    (hms : s0.measurements = []) :
    (runTicks s0 ts).totalEnergy =
      ((runTicks s0 ts).measurements.map (fun m =>
        m.cpuPower * m.duration / 3600000 * s0.pue +
        m.ramPower * m.duration / 3600000 * s0.pue +
        m.gpuPower * m.duration / 3600000 * s0.pue)).sum := by
  have h0 : storedEnergyInv s0.pue s0 := by
    refine ⟨rfl, ?_, ?_, ?_, ?_, ?_⟩ <;> simp [hcpu, hram, hgpu, htot, hms]
  obtain ⟨hp, h1, h2, h3, h4, h5⟩ := runTicks_storedEnergyInv s0.pue s0 ts h0
  rw [h4, h1, h2, h3, sum_map_add_three]
  have hc : ((runTicks s0 ts).measurements.map Measurement.cpuEnergy) =
      ((runTicks s0 ts).measurements.map fun m =>
        m.cpuPower * m.duration / 3600000 * s0.pue) :=
    List.map_congr_left fun m hm => (h5 m hm).1
  have hr : ((runTicks s0 ts).measurements.map Measurement.ramEnergy) =
      ((runTicks s0 ts).measurements.map fun m =>
        m.ramPower * m.duration / 3600000 * s0.pue) :=
    List.map_congr_left fun m hm => (h5 m hm).2.1
  have hg : ((runTicks s0 ts).measurements.map Measurement.gpuEnergy) =
      ((runTicks s0 ts).measurements.map fun m =>
        m.gpuPower * m.duration / 3600000 * s0.pue) :=
    List.map_congr_left fun m hm => (h5 m hm).2.2
  rw [hc, hr, hg]

/-- Concrete fresh state used by several witnesses: a tracker constructed
with a manual country, two nonzero force overrides and interval 1 s, put
into the tracking state as start does before its first tick. -/
def witnessBaseState : TrackerState :=
  { isTracking := true
    startTime := 0
    endTime := 0
    measurePowerInterval := 1000
    pue := 1
    forceCpuPower := some 65
    forceRamPower := some 10
    forceGpuPower := none
    locCountryCode := "USA"
    locRegion := none
    totalCpuEnergy := 0
    totalRamEnergy := 0
    totalGpuEnergy := 0
    totalEnergy := 0
    measurements := [] }

/-- Sampler readings where every hardware query succeeds. -/
def okSample : TickSample :=
  { cpuLoad := Except.ok 40, cpuTdp := 85, ramPower := Except.ok 10,
    gpuPower := 20 }

theorem conservation_total_energy_witness :
    (runTicks witnessBaseState [(0, okSample), (1000, okSample)]).totalEnergy =
      ((runTicks witnessBaseState
          [(0, okSample), (1000, okSample)]).measurements.map (fun m =>
        m.cpuPower * m.duration / 3600000 * witnessBaseState.pue +
        m.ramPower * m.duration / 3600000 * witnessBaseState.pue +
        m.gpuPower * m.duration / 3600000 * witnessBaseState.pue)).sum :=
  conservation_total_energy witnessBaseState [(0, okSample), (1000, okSample)]
    rfl rfl rfl rfl rfl
section ProjectionLemmas

variable (s : TrackerState) (now : ℚ) (smp : TickSample) (r : ℚ)

@[simp] theorem performTick_isTracking :
    (performTick s now smp r).isTracking = s.isTracking := rfl
@[simp] theorem performTick_startTime :
    (performTick s now smp r).startTime = s.startTime := rfl
@[simp] theorem performTick_endTime :
    (performTick s now smp r).endTime = s.endTime := rfl
@[simp] theorem performTick_interval :
    (performTick s now smp r).measurePowerInterval = s.measurePowerInterval := rfl
@[simp] theorem performTick_pue2 :
    (performTick s now smp r).pue = s.pue := rfl
@[simp] theorem performTick_forceCpu :
    (performTick s now smp r).forceCpuPower = s.forceCpuPower := rfl
@[simp] theorem performTick_forceRam :
    (performTick s now smp r).forceRamPower = s.forceRamPower := rfl
@[simp] theorem performTick_forceGpu :
    (performTick s now smp r).forceGpuPower = s.forceGpuPower := rfl
@[simp] theorem performTick_locCountry :
    (performTick s now smp r).locCountryCode = s.locCountryCode := rfl
@[simp] theorem performTick_locRegion :
    (performTick s now smp r).locRegion = s.locRegion := rfl
@[simp] theorem performTick_totalCpu :
    (performTick s now smp r).totalCpuEnergy =
      s.totalCpuEnergy +
        effectiveCpuPower s smp * timeSinceLast s now / (1000 * 3600) * s.pue := rfl
@[simp] theorem performTick_totalRam :
    (performTick s now smp r).totalRamEnergy =
      s.totalRamEnergy +
        effectiveRamPower s r * timeSinceLast s now / (1000 * 3600) * s.pue := rfl
@[simp] theorem performTick_totalGpu :
    (performTick s now smp r).totalGpuEnergy =
      s.totalGpuEnergy +
        effectiveGpuPower s smp * timeSinceLast s now / (1000 * 3600) * s.pue := rfl
@[simp] theorem performTick_total :
    (performTick s now smp r).totalEnergy =
      (performTick s now smp r).totalCpuEnergy +
      (performTick s now smp r).totalRamEnergy +
      (performTick s now smp r).totalGpuEnergy := rfl
@[simp] theorem performTick_measurements :
    (performTick s now smp r).measurements =
      s.measurements ++ [tickMeasurement s now smp r] := rfl

@[simp] theorem tickMeasurement_timestamp :
    (tickMeasurement s now smp r).timestamp = now := rfl
@[simp] theorem tickMeasurement_duration :
    (tickMeasurement s now smp r).duration = timeSinceLast s now := rfl
@[simp] theorem tickMeasurement_cpuPower :
    (tickMeasurement s now smp r).cpuPower = effectiveCpuPower s smp := rfl
@[simp] theorem tickMeasurement_ramPower :
    (tickMeasurement s now smp r).ramPower = effectiveRamPower s r := rfl
@[simp] theorem tickMeasurement_gpuPower :
    (tickMeasurement s now smp r).gpuPower = effectiveGpuPower s smp := rfl
@[simp] theorem tickMeasurement_cpuUsage :
    (tickMeasurement s now smp r).cpuUsage = getCPUUsage smp.cpuLoad := rfl

@[simp] theorem resetState_isTracking :
    (resetState s now).isTracking = true := rfl
@[simp] theorem resetState_startTime :
    (resetState s now).startTime = now := rfl
@[simp] theorem resetState_endTime :
    (resetState s now).endTime = s.endTime := rfl
@[simp] theorem resetState_interval :
    (resetState s now).measurePowerInterval = s.measurePowerInterval := rfl
@[simp] theorem resetState_pue :
    (resetState s now).pue = s.pue := rfl
@[simp] theorem resetState_forceCpu :
    (resetState s now).forceCpuPower = s.forceCpuPower := rfl
@[simp] theorem resetState_forceRam :
    (resetState s now).forceRamPower = s.forceRamPower := rfl
@[simp] theorem resetState_forceGpu :
    (resetState s now).forceGpuPower = s.forceGpuPower := rfl
@[simp] theorem resetState_locCountry :
    (resetState s now).locCountryCode = s.locCountryCode := rfl
@[simp] theorem resetState_locRegion :
    (resetState s now).locRegion = s.locRegion := rfl
@[simp] theorem resetState_totalCpu :
    (resetState s now).totalCpuEnergy = 0 := rfl
@[simp] theorem resetState_totalRam :
    (resetState s now).totalRamEnergy = 0 := rfl
@[simp] theorem resetState_totalGpu :
    (resetState s now).totalGpuEnergy = 0 := rfl
@[simp] theorem resetState_total :
    (resetState s now).totalEnergy = 0 := rfl
@[simp] theorem resetState_measurements :
    (resetState s now).measurements = [] := rfl

@[simp] theorem timeSinceLast_empty (h : s.measurements = []) :
    timeSinceLast s now = s.measurePowerInterval / 1000 := by
  simp [timeSinceLast, h]

theorem timeSinceLast_last (m : Measurement)
    (h : s.measurements.getLast? = some m) :
    timeSinceLast s now = (now - m.timestamp) / 1000 := by
  simp [timeSinceLast, h]

end ProjectionLemmas

theorem start_of_idle (s : TrackerState) (now : ℚ) (smp : TickSample)
    (h : s.isTracking = false) :
    start s now smp = measurePowerAndEnergy (resetState s now) now smp := by
  simp [start, h]

theorem tick_tracking_ok (s : TrackerState) (now : ℚ) (smp : TickSample)
    (r : ℚ) (ht : s.isTracking = true) (hr : smp.ramPower = Except.ok r) :
    measurePowerAndEnergy s now smp = performTick s now smp r := by
  simp [measurePowerAndEnergy, ht, hr]

/-! ## Claim C2 -/

/-- Tracker options of the start-stop scenario: manual country USA and
nonzero force overrides for all three domains, default interval 15 s. -/
def scenarioOpts : TrackerOptions :=
  { measurePowerSecs := none
    countryCode := some "USA"
    region := none
    pue := none
    forceCpuPower := some 100
    forceRamPower := some 10
    forceGpuPower := some 5 }

/-- Sampler readings of the start-stop scenario; every query succeeds. -/
def scenarioSample : TickSample :=
  { cpuLoad := Except.ok 40, cpuTdp := 85, ramPower := Except.ok 10,
    gpuPower := 150 }

/-- Claim C2 counterexample: a freshly constructed tracker started at t = 0
and stopped at the same instant records two measurement ticks, not one, and
its accumulated energy is 115 W integrated over the full 15 s interval of
the immediate start tick, not approximately 0. -/
theorem start_stop_single_tick_counterexample :
    ((stop (start (initialState scenarioOpts) 0 scenarioSample) 0 0
        scenarioSample [("USA", 475)]).1).measurements.length ≠ 1 ∧
    ((stop (start (initialState scenarioOpts) 0 scenarioSample) 0 0
        scenarioSample [("USA", 475)]).1).totalEnergy = 23 / 48000 := by
  constructor
  · simp [stop, start, measurePowerAndEnergy, initialState, scenarioOpts,
      scenarioSample, resetState, performTick, tickMeasurement, timeSinceLast,
      effectiveCpuPower, effectiveRamPower, effectiveGpuPower, jsOr, jsOrNum,
      jsOrNull, jsOrStrNull, resolvedLocation, getCPUUsage, estimateCPUPower]
  · simp [stop, start, measurePowerAndEnergy, initialState, scenarioOpts,
      scenarioSample, resetState, performTick, tickMeasurement, timeSinceLast,
      effectiveCpuPower, effectiveRamPower, effectiveGpuPower, jsOr, jsOrNum,
      jsOrNull, jsOrStrNull, resolvedLocation, getCPUUsage, estimateCPUPower]
    norm_num

/-- Claim C2 (amended): start() immediately followed by stop() at the same
clock reading records exactly two measurement ticks (the immediate start
tick plus the final stop tick); the start tick integrates over the full
configured interval, the stop tick has elapsed 0 and adds no energy, and the
divide-by-zero guard yields emissions rate 0. -/
theorem start_stop_two_ticks (opts : TrackerOptions) (t : ℚ)
    (smp : TickSample) (r : ℚ) (hr : smp.ramPower = Except.ok r)
    (table : List (String × ℚ)) :
    ((stop (start (initialState opts) t smp) t t smp table).1).measurements.length
        = 2 ∧
    (((stop (start (initialState opts) t smp) t t smp
        table).1).measurements.getLast?.map Measurement.duration) = some 0 ∧
    ((stop (start (initialState opts) t smp) t t smp table).1).totalEnergy =
      (start (initialState opts) t smp).totalEnergy ∧
    ((start (initialState opts) t smp).measurements.getLast?.map
        Measurement.duration) =
      some ((initialState opts).measurePowerInterval / 1000) ∧
    (calculateFinalEmissions
        ((stop (start (initialState opts) t smp) t t smp table).1)
        table).emissionsRate = 0 := by
  have h1 : start (initialState opts) t smp =
      performTick (resetState (initialState opts) t) t smp r := by
    rw [start_of_idle (initialState opts) t smp rfl,
      tick_tracking_ok (resetState (initialState opts) t) t smp r rfl hr]
  have hms1 : (performTick (resetState (initialState opts) t) t smp
      r).measurements =
      [tickMeasurement (resetState (initialState opts) t) t smp r] := by simp
  have hd2 : timeSinceLast
      (performTick (resetState (initialState opts) t) t smp r) t = 0 := by
    rw [timeSinceLast_last _ _
      (tickMeasurement (resetState (initialState opts) t) t smp r)
      (by simp [hms1])]
    simp
  have h2 : (stop (start (initialState opts) t smp) t t smp table).1 =
      { performTick (performTick (resetState (initialState opts) t) t smp r)
          t smp r with
        endTime := t
        isTracking := false } := by
    rw [h1, stop]
    rw [tick_tracking_ok (performTick (resetState (initialState opts) t) t
      smp r) t smp r rfl hr]
    simp
  refine ⟨?_, ?_, ?_, ?_, ?_⟩
  · rw [h2]; simp
  · rw [h2]; simp [hd2]
  · rw [h2, h1]; simp [hd2]
  · rw [h1]; simp
  · rw [h2]
    simp [calculateFinalEmissions, calculateEmissions]

theorem start_stop_two_ticks_witness :
    ((stop (start (initialState scenarioOpts) 0 scenarioSample) 0 0
        scenarioSample [("USA", 475)]).1).measurements.length = 2 ∧
    (((stop (start (initialState scenarioOpts) 0 scenarioSample) 0 0
        scenarioSample [("USA", 475)]).1).measurements.getLast?.map
        Measurement.duration) = some 0 ∧
    ((stop (start (initialState scenarioOpts) 0 scenarioSample) 0 0
        scenarioSample [("USA", 475)]).1).totalEnergy =
      (start (initialState scenarioOpts) 0 scenarioSample).totalEnergy ∧
    ((start (initialState scenarioOpts) 0 scenarioSample).measurements.getLast?.map
        Measurement.duration) =
      some ((initialState scenarioOpts).measurePowerInterval / 1000) ∧
    (calculateFinalEmissions
        ((stop (start (initialState scenarioOpts) 0 scenarioSample) 0 0
          scenarioSample [("USA", 475)]).1)
        [("USA", 475)]).emissionsRate = 0 :=
  start_stop_two_ticks scenarioOpts 0 scenarioSample 10 rfl [("USA", 475)]

/-! ## Claim C3 -/

/-- A previously recorded measurement whose timestamp (1000 ms) is later
than the clock reading of the next tick. -/
def priorMeasurement : Measurement :=
  { timestamp := 1000
    duration := 15
    cpuPower := 100
    ramPower := 10
    gpuPower := 5
    cpuEnergy := 1
    ramEnergy := 1
    gpuEnergy := 1
    totalEnergy := 3
    cpuUsage := 40 }

/-- A running session that already recorded priorMeasurement, about to see
a clock reading earlier than that timestamp. -/
def backwardClockState : TrackerState :=
  { isTracking := true
    startTime := 0
    endTime := 0
    measurePowerInterval := 15000
    pue := 1
    forceCpuPower := some 100
    forceRamPower := some 10
    forceGpuPower := some 5
    locCountryCode := "USA"
    locRegion := none
    totalCpuEnergy := 1
    totalRamEnergy := 1
    totalGpuEnergy := 1
    totalEnergy := 3
    measurements := [priorMeasurement] }

/-- Claim C3 counterexample: on a tick whose clock reading (0) precedes the
previous measurement timestamp (1000 ms), the elapsed time is negative and
the cpu accumulator strictly decreases while Running. -/
theorem accumulator_decrease_counterexample :
    (measurePowerAndEnergy backwardClockState 0 scenarioSample).totalCpuEnergy <
      backwardClockState.totalCpuEnergy := by
  rw [tick_tracking_ok backwardClockState 0 scenarioSample 10 rfl rfl]
  simp [backwardClockState, timeSinceLast, priorMeasurement, effectiveCpuPower,
    jsOr, scenarioSample, getCPUUsage, estimateCPUPower]
  norm_num

/-- Claim C3 (amended): a domain accumulator never decreases on a tick
provided the PUE, the elapsed time computed for the tick, and each
effective domain wattage are non-negative; the code does not clamp a
negative elapsed time, so this requires the clock not to step backwards
past the previous measurement. -/
theorem tick_accumulators_monotone (s : TrackerState) (now : ℚ)
    (smp : TickSample) (r : ℚ) (hr : smp.ramPower = Except.ok r)
    (hpue : 0 ≤ s.pue) (hel : 0 ≤ timeSinceLast s now)
    (hcpu : 0 ≤ effectiveCpuPower s smp)
    (hram : 0 ≤ effectiveRamPower s r)
    (hgpu : 0 ≤ effectiveGpuPower s smp) :
    s.totalCpuEnergy ≤ (measurePowerAndEnergy s now smp).totalCpuEnergy ∧
    s.totalRamEnergy ≤ (measurePowerAndEnergy s now smp).totalRamEnergy ∧
    s.totalGpuEnergy ≤ (measurePowerAndEnergy s now smp).totalGpuEnergy := by
  by_cases ht : s.isTracking = false
  · simp [measurePowerAndEnergy, ht]
  · have ht2 : s.isTracking = true := by revert ht; cases s.isTracking <;> simp
    rw [tick_tracking_ok s now smp r ht2 hr]
    refine ⟨?_, ?_, ?_⟩
    · have hx : 0 ≤ effectiveCpuPower s smp * timeSinceLast s now /
          (1000 * 3600) * s.pue :=
        mul_nonneg (div_nonneg (mul_nonneg hcpu hel) (by norm_num)) hpue
      rw [performTick_totalCpu]
      exact le_add_of_nonneg_right hx
    · have hx : 0 ≤ effectiveRamPower s r * timeSinceLast s now /
          (1000 * 3600) * s.pue :=
        mul_nonneg (div_nonneg (mul_nonneg hram hel) (by norm_num)) hpue
      rw [performTick_totalRam]
      exact le_add_of_nonneg_right hx
    · have hx : 0 ≤ effectiveGpuPower s smp * timeSinceLast s now /
          (1000 * 3600) * s.pue :=
        mul_nonneg (div_nonneg (mul_nonneg hgpu hel) (by norm_num)) hpue
      rw [performTick_totalGpu]
      exact le_add_of_nonneg_right hx

theorem tick_accumulators_monotone_witness :
    witnessBaseState.totalCpuEnergy ≤
      (measurePowerAndEnergy witnessBaseState 0 okSample).totalCpuEnergy ∧
    witnessBaseState.totalRamEnergy ≤
      (measurePowerAndEnergy witnessBaseState 0 okSample).totalRamEnergy ∧
    witnessBaseState.totalGpuEnergy ≤
      (measurePowerAndEnergy witnessBaseState 0 okSample).totalGpuEnergy :=
  tick_accumulators_monotone witnessBaseState 0 okSample 10 rfl
    (by norm_num [witnessBaseState])
    (by norm_num [timeSinceLast, witnessBaseState])
    (by norm_num [effectiveCpuPower, witnessBaseState, jsOr])
    (by norm_num [effectiveRamPower, witnessBaseState, jsOr])
    (by norm_num [effectiveGpuPower, witnessBaseState, jsOr, okSample])

/-! ## Claim C4 -/

/-- Claim C4 counterexample: with the previous measurement stamped at
1000 ms and the next clock reading at 0, the recorded elapsed time is
-1 s, not max(0, now - lastTickTime) = 0: the code does not clamp. -/
theorem elapsed_clamp_counterexample :
    ((measurePowerAndEnergy backwardClockState 0
        scenarioSample).measurements.getLast?.map Measurement.duration) =
      some (-1) ∧
    ((-1 : ℚ) ≠ max 0 (-1)) := by
  constructor
  · rw [tick_tracking_ok backwardClockState 0 scenarioSample 10 rfl rfl]
    simp [backwardClockState, timeSinceLast, priorMeasurement]
  · norm_num

/-- Claim C4 (amended): every performed tick records as its duration
exactly timeSinceLast, which is (now - lastTimestamp) / 1000 seconds when a
previous measurement exists and measurePowerInterval / 1000 on the first
tick; no clamping to non-negative values is applied. -/
theorem tick_elapsed_unclamped (s : TrackerState) (now : ℚ)
    (smp : TickSample) (r : ℚ) (ht : s.isTracking = true)
    (hr : smp.ramPower = Except.ok r) :
    ((measurePowerAndEnergy s now smp).measurements.getLast?.map
        Measurement.duration) = some (timeSinceLast s now) ∧
    timeSinceLast s now =
      ((s.measurements.getLast?.map (fun m => (now - m.timestamp) / 1000)).getD
        (s.measurePowerInterval / 1000)) := by
  constructor
  · rw [tick_tracking_ok s now smp r ht hr]
    simp
  · cases h : s.measurements.getLast? <;> simp [timeSinceLast, h]

theorem tick_elapsed_unclamped_witness :
    ((measurePowerAndEnergy witnessBaseState 0 okSample).measurements.getLast?.map
        Measurement.duration) = some (timeSinceLast witnessBaseState 0) ∧
    timeSinceLast witnessBaseState 0 =
      ((witnessBaseState.measurements.getLast?.map
          (fun m => (0 - m.timestamp) / 1000)).getD
        (witnessBaseState.measurePowerInterval / 1000)) :=
  tick_elapsed_unclamped witnessBaseState 0 okSample 10 rfl rfl

/-! ## Claim C5 -/

/-- Claim C5: every performed tick recomputes the total energy as exactly
the sum of the three domain accumulators — regardless of any relation (or
drift) between the total and the accumulators before the tick. -/
theorem total_recomputed_each_tick (s : TrackerState) (now : ℚ)
    (smp : TickSample) (r : ℚ) (ht : s.isTracking = true)
    (hr : smp.ramPower = Except.ok r) :
    (measurePowerAndEnergy s now smp).totalEnergy =
      (measurePowerAndEnergy s now smp).totalCpuEnergy +
      (measurePowerAndEnergy s now smp).totalRamEnergy +
      (measurePowerAndEnergy s now smp).totalGpuEnergy := by
  rw [tick_tracking_ok s now smp r ht hr]
  rfl

theorem total_recomputed_each_tick_witness :
    (measurePowerAndEnergy witnessBaseState 0 okSample).totalEnergy =
      (measurePowerAndEnergy witnessBaseState 0 okSample).totalCpuEnergy +
      (measurePowerAndEnergy witnessBaseState 0 okSample).totalRamEnergy +
      (measurePowerAndEnergy witnessBaseState 0 okSample).totalGpuEnergy :=
  total_recomputed_each_tick witnessBaseState 0 okSample 10 rfl rfl

/-! ## Claim C6 -/

/-- A stopped session holding 1 kWh, parametrized by the configured
region, used to show the final emissions ignore the region. -/
def regionState (rg : Option String) : TrackerState :=
  { isTracking := false
    startTime := 0
    endTime := 1000
    measurePowerInterval := 15000
    pue := 1
    forceCpuPower := none
    forceRamPower := none
    forceGpuPower := none
    locCountryCode := "USA"
    locRegion := rg
    totalCpuEnergy := 1
    totalRamEnergy := 0
    totalGpuEnergy := 0
    totalEnergy := 1
    measurements := [priorMeasurement] }

/-- Claim C6 counterexample: with a table giving USA a country-level
intensity of 380, the final emissions with region CA equal the final
emissions with no region (the region is never passed to the lookup), even
though the regional table holds a different value (300) for (USA, CA) —
so intensity(USA, CA) = intensity(USA, null) in the final computation,
contradicting the claimed inequality. -/
theorem region_ignored_counterexample :
    (calculateFinalEmissions (regionState (some "CA"))
        [("USA", 380)]).emissions =
      (calculateFinalEmissions (regionState none) [("USA", 380)]).emissions ∧
    (calculateFinalEmissions (regionState (some "CA"))
        [("USA", 380)]).emissions = 380 / 1000 ∧
    getRegionalCarbonIntensity "USA" (some "CA") = some 300 ∧
    (300 : ℚ) ≠ 380 := by
  refine ⟨rfl, ?_, ?_, by norm_num⟩
  · simp [calculateFinalEmissions, calculateEmissions, getCarbonIntensity,
      regionState]
  · simp [getRegionalCarbonIntensity, usStates]

/-- Claim C6 (amended): the final emissions computation passes only the
country code to the intensity lookup, so its result is independent of the
configured region; the sub-region precedence exists only in the standalone
Geography.getRegionalCarbonIntensity helper, which yields 300 for (USA, CA),
none for an unrecognized region such as (USA, ZZ), and none when no region
is set — none meaning fall back to country-level data. -/
theorem final_emissions_region_independent (s : TrackerState)
    (table : List (String × ℚ)) (rg : Option String) :
    (calculateFinalEmissions { s with locRegion := rg } table).emissions =
      (calculateFinalEmissions s table).emissions ∧
    getRegionalCarbonIntensity "USA" (some "CA") = some 300 ∧
    getRegionalCarbonIntensity "USA" (some "ZZ") = none ∧
    getRegionalCarbonIntensity "USA" none = none := by
  refine ⟨rfl, ?_, ?_, rfl⟩
  · simp [getRegionalCarbonIntensity, usStates]
  · simp [getRegionalCarbonIntensity, usStates]

/-! ## Claim C7 -/

theorem tick_forceCpu (s : TrackerState) (now : ℚ) (smp : TickSample) :
    (measurePowerAndEnergy s now smp).forceCpuPower = s.forceCpuPower := by
  unfold measurePowerAndEnergy
  by_cases ht : s.isTracking = false
  · simp [ht]
  · cases hr : smp.ramPower with
    | error e => simp [ht, hr]
    | ok r => simp [ht, hr]

theorem tick_forceRam (s : TrackerState) (now : ℚ) (smp : TickSample) :
    (measurePowerAndEnergy s now smp).forceRamPower = s.forceRamPower := by
  unfold measurePowerAndEnergy
  by_cases ht : s.isTracking = false
  · simp [ht]
  · cases hr : smp.ramPower with
    | error e => simp [ht, hr]
    | ok r => simp [ht, hr]

theorem tick_forceGpu (s : TrackerState) (now : ℚ) (smp : TickSample) :
    (measurePowerAndEnergy s now smp).forceGpuPower = s.forceGpuPower := by
  unfold measurePowerAndEnergy
  by_cases ht : s.isTracking = false
  · simp [ht]
  · cases hr : smp.ramPower with
    | error e => simp [ht, hr]
    | ok r => simp [ht, hr]

theorem runTicks_forceCpu (s : TrackerState) (ts : List (ℚ × TickSample)) :
    (runTicks s ts).forceCpuPower = s.forceCpuPower := by
  induction ts generalizing s with
  | nil => rfl
  | cons t rest ih =>
    exact (ih (measurePowerAndEnergy s t.1 t.2)).trans (tick_forceCpu s t.1 t.2)

theorem runTicks_forceRam (s : TrackerState) (ts : List (ℚ × TickSample)) :
    (runTicks s ts).forceRamPower = s.forceRamPower := by
  induction ts generalizing s with
  | nil => rfl
  | cons t rest ih =>
    exact (ih (measurePowerAndEnergy s t.1 t.2)).trans (tick_forceRam s t.1 t.2)

theorem runTicks_forceGpu (s : TrackerState) (ts : List (ℚ × TickSample)) :
    (runTicks s ts).forceGpuPower = s.forceGpuPower := by
  induction ts generalizing s with
  | nil => rfl
  | cons t rest ih =>
    exact (ih (measurePowerAndEnergy s t.1 t.2)).trans (tick_forceGpu s t.1 t.2)

/-- Every recorded measurement of the state reports, for each domain whose
force override is set to a nonzero wattage, exactly that wattage. -/
def overridesRespected (s : TrackerState) : Prop :=
  ∀ m ∈ s.measurements,
    (∀ v, s.forceCpuPower = some v → v ≠ 0 → m.cpuPower = v) ∧
    (∀ v, s.forceRamPower = some v → v ≠ 0 → m.ramPower = v) ∧
    (∀ v, s.forceGpuPower = some v → v ≠ 0 → m.gpuPower = v)

theorem tick_overridesRespected (s : TrackerState) (now : ℚ)
    (smp : TickSample) (h : overridesRespected s) :
    overridesRespected (measurePowerAndEnergy s now smp) := by
  by_cases ht : s.isTracking = false
  · simpa [measurePowerAndEnergy, ht] using h
  · have ht2 : s.isTracking = true := by revert ht; cases s.isTracking <;> simp
    cases hr : smp.ramPower with
    | error e => simpa [measurePowerAndEnergy, ht2, hr] using h
    | ok r =>
      rw [tick_tracking_ok s now smp r ht2 hr]
      intro m hm
      simp only [performTick_forceCpu, performTick_forceRam,
        performTick_forceGpu, performTick_measurements] at hm ⊢
      rcases List.mem_append.mp hm with hm2 | hm2
      · exact h m hm2
      · have hm3 : m = tickMeasurement s now smp r :=
          List.eq_of_mem_singleton hm2
        subst hm3
        refine ⟨?_, ?_, ?_⟩ <;> intro v hv hv0 <;>
          simp [effectiveCpuPower, effectiveRamPower, effectiveGpuPower,
            jsOr, hv, hv0]

theorem runTicks_overridesRespected (s : TrackerState)
    (ts : List (ℚ × TickSample)) (h : overridesRespected s) :
    overridesRespected (runTicks s ts) := by
  induction ts generalizing s with
  | nil => exact h
  | cons t rest ih =>
    exact ih (measurePowerAndEnergy s t.1 t.2)
      (tick_overridesRespected s t.1 t.2 h)

/-- Options with a GPU override of 0 W, the case the spec scenario uses. -/
def zeroGpuOpts : TrackerOptions :=
  { measurePowerSecs := none
    countryCode := some "USA"
    region := none
    pue := none
    forceCpuPower := none
    forceRamPower := none
    forceGpuPower := some 0 }

/-- Claim C7 counterexample: with forceGpuPower set to 0 W at construction
and a sampler reporting 150 W for the GPU, the first tick records 150 W for
the GPU domain — a 0 W override is falsy in JavaScript, is stored as null
and does not bypass the sampler. -/
theorem zero_override_counterexample :
    ((start (initialState zeroGpuOpts) 0
        scenarioSample).measurements.map Measurement.gpuPower) = [150] ∧
    (150 : ℚ) ≠ 0 := by
  constructor
  · rw [start_of_idle (initialState zeroGpuOpts) 0 scenarioSample rfl,
      tick_tracking_ok (resetState (initialState zeroGpuOpts) 0) 0
        scenarioSample 10 rfl rfl]
    simp [initialState, zeroGpuOpts, scenarioSample, effectiveGpuPower, jsOr,
      jsOrNull]
  · norm_num

/-- Claim C7 (amended): a force-power override with a nonzero wattage is
used on every tick of the whole session for its domain, bypassing the
sampler; a 0 W override is treated as unset (JavaScript falsy) and the
sampled value is used instead. -/
theorem nonzero_override_used_every_tick (s : TrackerState)
    (ts : List (ℚ × TickSample)) (hm : s.measurements = []) :
    ∀ m ∈ (runTicks s ts).measurements,
      (∀ v, s.forceCpuPower = some v → v ≠ 0 → m.cpuPower = v) ∧
      (∀ v, s.forceRamPower = some v → v ≠ 0 → m.ramPower = v) ∧
      (∀ v, s.forceGpuPower = some v → v ≠ 0 → m.gpuPower = v) := by
  have h0 : overridesRespected s := by
    intro m hm2
    rw [hm] at hm2
    cases hm2
  have hres := runTicks_overridesRespected s ts h0
  intro m hmem
  obtain ⟨hc, hrm, hg⟩ := hres m hmem
  refine ⟨?_, ?_, ?_⟩ <;> intro v hv hv0
  · exact hc v ((runTicks_forceCpu s ts).trans hv) hv0
  · exact hrm v ((runTicks_forceRam s ts).trans hv) hv0
  · exact hg v ((runTicks_forceGpu s ts).trans hv) hv0

theorem nonzero_override_used_every_tick_witness :
    (tickMeasurement witnessBaseState 0 okSample 10).cpuPower = 65 := by
  have hrun : runTicks witnessBaseState [(0, okSample)] =
      performTick witnessBaseState 0 okSample 10 :=
    tick_tracking_ok witnessBaseState 0 okSample 10 rfl rfl
  have hmem : tickMeasurement witnessBaseState 0 okSample 10 ∈
      (runTicks witnessBaseState [(0, okSample)]).measurements := by
    rw [hrun]
    simp
  exact (nonzero_override_used_every_tick witnessBaseState [(0, okSample)]
    rfl (tickMeasurement witnessBaseState 0 okSample 10) hmem).1 65 rfl
    (by norm_num)

/-! ## Claim C8 -/

/-- Sampler readings where the RAM query throws (hardware initialization
failed, memInfo is null). -/
def ramFailSample : TickSample :=
  { cpuLoad := Except.ok 40, cpuTdp := 85, ramPower := Except.error (),
    gpuPower := 20 }

/-- Sampler readings where only the CPU-load probe fails; getCPUUsage
catches this failure itself. -/
def cpuLoadFailSample : TickSample :=
  { cpuLoad := Except.error (), cpuTdp := 85, ramPower := Except.ok 10,
    gpuPower := 20 }

/-- Claim C8 counterexample: when the RAM query throws during a tick of a
running session, no measurement is appended and nothing is accumulated —
the whole tick is skipped by the catch handler, instead of substituting the
last observed value and still recording the tick as claimed. -/
theorem sampler_failure_skips_tick_counterexample :
    (measurePowerAndEnergy witnessBaseState 0 ramFailSample).measurements.length
      = 0 ∧
    (measurePowerAndEnergy witnessBaseState 0 ramFailSample).totalEnergy =
      witnessBaseState.totalEnergy ∧
    (measurePowerAndEnergy witnessBaseState 0 ramFailSample).isTracking
      = true :=
  ⟨rfl, rfl, rfl⟩

/-- Claim C8 (amended): a sampler exception that escapes a hardware query
(the RAM query) is caught by the tick handler, which logs the error and
skips the whole tick — the state, including the Running flag, is untouched
and the session is never aborted; only a CPU-load probe failure is absorbed
inside getCPUUsage, which substitutes the fixed default 50 percent (not the
last observed value), after which the tick proceeds normally: it appends a
measurement whose CPU usage is 50 and whose CPU wattage is estimated from
the 50 percent load. -/
theorem sampler_failure_behaviour (s : TrackerState) (now : ℚ)
    (smp smp2 : TickSample) (r : ℚ)
    (he : smp.ramPower = Except.error ())
    (ht : s.isTracking = true)
    (hl : smp2.cpuLoad = Except.error ())
    (hr2 : smp2.ramPower = Except.ok r) :
    measurePowerAndEnergy s now smp = s ∧
    (measurePowerAndEnergy s now smp2).measurements.length =
      s.measurements.length + 1 ∧
    ((measurePowerAndEnergy s now smp2).measurements.getLast?.map
        Measurement.cpuUsage) = some 50 ∧
    ((measurePowerAndEnergy s now smp2).measurements.getLast?.map
        Measurement.cpuPower) =
      some (jsOr s.forceCpuPower (estimateCPUPower smp2.cpuTdp 50)) := by
  refine ⟨?_, ?_, ?_, ?_⟩
  · simp [measurePowerAndEnergy, ht, he]
  · rw [tick_tracking_ok s now smp2 r ht hr2]
    simp
  · rw [tick_tracking_ok s now smp2 r ht hr2]
    simp [getCPUUsage, hl]
  · rw [tick_tracking_ok s now smp2 r ht hr2]
    simp [effectiveCpuPower, getCPUUsage, hl]

theorem sampler_failure_behaviour_witness :
    measurePowerAndEnergy witnessBaseState 0 ramFailSample =
      witnessBaseState ∧
    (measurePowerAndEnergy witnessBaseState 0 cpuLoadFailSample).measurements.length =
      witnessBaseState.measurements.length + 1 ∧
    ((measurePowerAndEnergy witnessBaseState 0
        cpuLoadFailSample).measurements.getLast?.map Measurement.cpuUsage) =
      some 50 ∧
    ((measurePowerAndEnergy witnessBaseState 0
        cpuLoadFailSample).measurements.getLast?.map Measurement.cpuPower) =
      some (jsOr witnessBaseState.forceCpuPower
        (estimateCPUPower cpuLoadFailSample.cpuTdp 50)) :=
  sampler_failure_behaviour witnessBaseState 0 ramFailSample
    cpuLoadFailSample 10 rfl rfl rfl rfl

/-! ## Claim C9 -/

/-- Claim C9: stop() on a session that is not Running logs a warning and
returns 0 without touching the state: no accumulator and no measurement is
mutated. -/
theorem stop_not_running_noop (s : TrackerState) (t1 t2 : ℚ)
    (smp : TickSample) (table : List (String × ℚ))
    (h : s.isTracking = false) :
    stop s t1 t2 smp table = (s, 0) := by
  simp [stop, h]

theorem stop_not_running_noop_witness :
    stop (initialState scenarioOpts) 0 0 scenarioSample [("USA", 475)] =
      (initialState scenarioOpts, 0) :=
  stop_not_running_noop (initialState scenarioOpts) 0 0 scenarioSample
    [("USA", 475)] rfl

/-! ## Claim C10 -/

/-- Claim C10: for any country code absent from the loaded intensity table
the lookup returns the world-average constant, 475 gCO2/kWh, and (as a
total function) never throws. -/
theorem unknown_country_world_average (table : List (String × ℚ))
    (code : String) (h : table.lookup code = none) :
    getCarbonIntensity table code = worldAverageCarbonIntensity ∧
    getCarbonIntensity table code = 475 := by
  constructor <;> simp [getCarbonIntensity, h, worldAverageCarbonIntensity]

theorem unknown_country_world_average_witness :
    getCarbonIntensity [("USA", 380)] "ZZZ" = worldAverageCarbonIntensity ∧
    getCarbonIntensity [("USA", 380)] "ZZZ" = 475 :=
  unknown_country_world_average [("USA", 380)] "ZZZ" (by simp [List.lookup])
